import Mathlib

/-!
Shallow embedding of the idasen-ha connection manager and desk wrapper.

The `ConnectionManager` of `idasen_ha/connection_manager.py` is modelled as a
small-step transition system over a configuration holding the manager's three
boolean guards (`_keep_connected`, `_connecting`, `_retry_pending`), the link
connection flag (`IdasenDesk.is_connected`), and the list of coroutine tasks
currently outstanding on the event loop.  Every `await` point of the Python
code becomes a suspended task state; resuming a task consumes an oracle value
describing the outcome of the awaited transport operation.  Transport calls,
observer callbacks and raised exceptions are recorded as step observations.

The `Desk` wrapper of `idasen_ha/__init__.py` is modelled with exact rational
arithmetic for heights and a faithful model of Python's `round` (ties to even).
-/

namespace IdasenHA

/-- Exceptions that can escape `ConnectionManager._connect`:
`TimeoutError`/`BleakError` from `IdasenDesk.connect()`, `AuthFailedError`,
a re-raised non-auth `BleakDBusError` from `pair()`, and a generic
`Exception` from `pair()`. -/
inductive Err where
  | transport
  | authFailed
  | dbusOther
  | pairOther
deriving DecidableEq, Repr

/-- Outcome of awaiting `IdasenDesk.connect()`: success, or a
`TimeoutError`/`BleakError`. -/
inductive ConnectOutcome where
  | ok
  | fail
deriving DecidableEq, Repr

/-- Outcome of awaiting `IdasenDesk.pair()`: success, `BleakDBusError` with
`dbus_error == "org.bluez.Error.AuthenticationFailed"`, `BleakDBusError` with
any other error name, or a generic `Exception`. -/
inductive PairOutcome where
  | ok
  | dbusAuth
  | dbusOther
  | exn
deriving DecidableEq, Repr

/-- Oracle supplying the outcome of the transport operation a resumed task was
awaiting.  Only the component relevant to the task is consulted. -/
structure Oracle where
  co : ConnectOutcome
  po : PairOutcome
deriving DecidableEq, Repr

/-- A coroutine task outstanding on the event loop, identified by the `await`
at which it is suspended inside `ConnectionManager`:
* `awaitConnect retry` — `_connect` suspended at `await self._idasen_desk.connect()`;
* `awaitPair retry` — `_connect` suspended at `await self._idasen_desk.pair()`;
* `cleanupDbus retry auth` — suspended at `await self._idasen_desk.disconnect()`
  inside the `except BleakDBusError` handler (`auth` records whether
  `ex.dbus_error == "org.bluez.Error.AuthenticationFailed"`);
* `cleanupExn retry` — suspended at `await self._idasen_desk.disconnect()`
  inside the `except Exception` handler;
* `awaitCallback retry` — `_handle_connect` suspended at
  `await self._connect_callback()`;
* `timer` — the `_reconnect` task created by `_schedule_reconnect`, suspended
  at `await asyncio.sleep(RECONNECT_INTERVAL_SEC)`;
* `spawnedDisconnect` — the `self.disconnect()` task created by
  `_handle_connect` when `_keep_connected` is false;
* `spawnedConnect retry` — the `self.connect(True)` task created by
  `_handle_disconnect`. -/
inductive TaskK where
  | awaitConnect (retry : Bool)
  | awaitPair (retry : Bool)
  | cleanupDbus (retry : Bool) (auth : Bool)
  | cleanupExn (retry : Bool)
  | awaitCallback (retry : Bool)
  | timer
  | spawnedDisconnect
  | spawnedConnect (retry : Bool)
deriving DecidableEq, Repr

/-- The mutable fields of a `ConnectionManager` together with the link flag
`IdasenDesk.is_connected`. -/
structure MState where
  keep_connected : Bool
  connecting : Bool
  retry_pending : Bool
  is_connected : Bool
deriving DecidableEq, Repr

/-- A configuration: manager state plus the outstanding event-loop tasks. -/
structure Config where
  st : MState
  tasks : List TaskK
deriving DecidableEq, Repr

/-- Fresh manager: all flags false, no tasks. -/
def Config.init : Config := ⟨⟨false, false, false, false⟩, []⟩

/-- Transport calls issued on the `IdasenDesk` link. -/
inductive LinkCall where
  | connect
  | pair
  | disconnect
deriving DecidableEq, Repr

/-- Callbacks the manager fires towards its owner (`connect_callback`,
`disconnect_callback`). -/
inductive Obs where
  | connect_callback
  | disconnect_callback
deriving DecidableEq, Repr

/-- Result of one atomic step: new configuration, transport calls issued,
callbacks fired, and the exception propagated to the awaiting caller, if
any. -/
structure StepRes where
  cfg : Config
  calls : List LinkCall
  obs : List Obs
  raised : Option Err
deriving DecidableEq, Repr

/-- `ConnectionManager._schedule_reconnect`: if `_retry_pending` is already
set, do nothing; otherwise set it and create the `_reconnect` timer task. -/
def scheduleReconnect (st : MState) (ts : List TaskK) : Config :=
  if st.retry_pending then ⟨st, ts⟩
  else ⟨{ st with retry_pending := true }, ts ++ [TaskK.timer]⟩

/-- The synchronous prefix of `ConnectionManager._connect`, up to the first
suspension: if `_connecting` is set, return immediately; otherwise set
`_connecting`, issue `IdasenDesk.connect()` and suspend awaiting it. -/
def connEntry (retry : Bool) (st : MState) (ts : List TaskK) : StepRes :=
  if st.connecting then ⟨⟨st, ts⟩, [], [], none⟩
  else ⟨⟨{ st with connecting := true }, ts ++ [TaskK.awaitConnect retry]⟩,
        [LinkCall.connect], [], none⟩

/-- Resume the task `t` (removed from the task list, leaving `rest`) with the
awaited outcome given by the oracle, running the Python code to the next
suspension point or to completion.  Each branch is a direct transcription of
`ConnectionManager._connect`, `_schedule_reconnect`, `_handle_connect` and
`disconnect`. -/
def resumeTask (t : TaskK) (o : Oracle) (st : MState) (rest : List TaskK) : StepRes :=
  match t with
  | .awaitConnect retry =>
    match o.co with
    | .ok =>
      ⟨⟨{ st with is_connected := true }, rest ++ [TaskK.awaitPair retry]⟩,
        [LinkCall.pair], [], none⟩
    | .fail =>
      if retry then
        let c1 := scheduleReconnect st rest
        ⟨⟨{ c1.st with connecting := false }, c1.tasks⟩, [], [], none⟩
      else
        ⟨⟨{ st with connecting := false }, rest⟩, [], [], some Err.transport⟩
  | .awaitPair retry =>
    match o.po with
    | .ok =>
      ⟨⟨st, rest ++ [TaskK.awaitCallback retry]⟩, [], [Obs.connect_callback], none⟩
    | .dbusAuth =>
      ⟨⟨st, rest ++ [TaskK.cleanupDbus retry true]⟩, [LinkCall.disconnect], [], none⟩
    | .dbusOther =>
      ⟨⟨st, rest ++ [TaskK.cleanupDbus retry false]⟩, [LinkCall.disconnect], [], none⟩
    | .exn =>
      ⟨⟨st, rest ++ [TaskK.cleanupExn retry]⟩, [LinkCall.disconnect], [], none⟩
  | .cleanupDbus _ auth =>
    ⟨⟨{ st with is_connected := false, connecting := false }, rest⟩, [], [],
      some (if auth then Err.authFailed else Err.dbusOther)⟩
  | .cleanupExn retry =>
    if retry then
      let c1 := scheduleReconnect { st with is_connected := false } rest
      ⟨⟨{ c1.st with connecting := false }, c1.tasks⟩, [], [], none⟩
    else
      ⟨⟨{ st with is_connected := false, connecting := false }, rest⟩, [], [],
        some Err.pairOther⟩
  | .awaitCallback _ =>
    ⟨⟨{ st with connecting := false },
       rest ++ (if st.keep_connected then [] else [TaskK.spawnedDisconnect])⟩,
      [], [], none⟩
  | .timer =>
    let st1 := { st with retry_pending := false }
    if !st1.keep_connected then ⟨⟨st1, rest⟩, [], [], none⟩
    else if st1.is_connected then ⟨⟨st1, rest⟩, [], [], none⟩
    else connEntry true st1 rest
  | .spawnedDisconnect =>
    let st1 := { st with keep_connected := false }
    if st1.is_connected then
      ⟨⟨{ st1 with is_connected := false }, rest⟩, [LinkCall.disconnect], [], none⟩
    else ⟨⟨st1, rest⟩, [], [], none⟩
  | .spawnedConnect retry =>
    connEntry retry { st with keep_connected := true } rest

/-- Events the scheduler can deliver to a configuration: an external
`connect(retry)` call, an external `disconnect()` call, the unsolicited
disconnect notification from the link, or resuming outstanding task `i` with
awaited outcome `o`. -/
inductive Event where
  | callConnect (retry : Bool)
  | callDisconnect
  | linkDropped
  | run (i : Nat) (o : Oracle)
deriving DecidableEq, Repr

/-- One atomic scheduler step, a direct transcription of the Python:
* `callConnect retry`: `connect` sets `_keep_connected := true` then runs
  `_connect(retry)` to its first suspension;
* `callDisconnect`: `disconnect` clears `_keep_connected` and, if the link is
  connected, issues `IdasenDesk.disconnect()`;
* `linkDropped`: the link drops (clearing `is_connected`) and
  `_handle_disconnect` runs: if `_connecting`, do nothing; otherwise fire
  `disconnect_callback` and, if `_keep_connected` and not `_retry_pending`,
  create a `connect(True)` task;
* `run i o`: resume outstanding task `i` with outcome `o`. -/
def applyEvent (c : Config) (e : Event) : StepRes :=
  match e with
  | .callConnect retry =>
    connEntry retry { c.st with keep_connected := true } c.tasks
  | .callDisconnect =>
    let st1 := { c.st with keep_connected := false }
    if st1.is_connected then
      ⟨⟨{ st1 with is_connected := false }, c.tasks⟩, [LinkCall.disconnect], [], none⟩
    else ⟨⟨st1, c.tasks⟩, [], [], none⟩
  | .linkDropped =>
    let st1 := { c.st with is_connected := false }
    if st1.connecting then ⟨⟨st1, c.tasks⟩, [], [], none⟩
    else
      ⟨⟨st1, c.tasks ++
          (if st1.keep_connected && !st1.retry_pending
           then [TaskK.spawnedConnect true] else [])⟩,
        [], [Obs.disconnect_callback], none⟩
  | .run i o =>
    match c.tasks[i]? with
    | none => ⟨c, [], [], none⟩
    | some t => resumeTask t o c.st (c.tasks.eraseIdx i)

/-- Configurations reachable from a fresh manager by any event sequence. -/
inductive Reachable : Config → Prop where
  | init : Reachable Config.init
  | step : ∀ {c : Config}, Reachable c → ∀ e : Event, Reachable (applyEvent c e).cfg

/-- Whether a task is part of an in-flight `_connect`/`pair` attempt. -/
def TaskK.isAttempt : TaskK → Bool
  | .awaitConnect _ => true
  | .awaitPair _ => true
  | .cleanupDbus _ _ => true
  | .cleanupExn _ => true
  | .awaitCallback _ => true
  | _ => false

/-- Whether a task is the pending `_reconnect` timer. -/
def TaskK.isTimer : TaskK → Bool
  | .timer => true
  | _ => false

/-- Number of in-flight connect-attempt tasks in a configuration. -/
def attemptCount (c : Config) : Nat := c.tasks.countP TaskK.isAttempt

/-- Number of outstanding reconnect timer tasks in a configuration. -/
def timerCount (c : Config) : Nat := c.tasks.countP TaskK.isTimer

/-- The two guard invariants: `_connecting` is set iff exactly one connect
attempt is in flight, and `_retry_pending` is set iff exactly one reconnect
timer task is outstanding. -/
def Inv (c : Config) : Prop :=
  attemptCount c = (if c.st.connecting then 1 else 0) ∧
  timerCount c = (if c.st.retry_pending then 1 else 0)

/-- Counting after removing the element at a valid index. -/
theorem countP_eraseIdx_eq {α : Type} (p : α → Bool) :
    ∀ (l : List α) (i : Nat) (t : α), l[i]? = some t →
      l.countP p = (l.eraseIdx i).countP p + (if p t then 1 else 0) := by
  intro l
  induction l with
  | nil => intro i t h; simp at h
  | cons a l ih =>
      intro i t h
      cases i with
      | zero =>
          simp only [List.getElem?_cons_zero, Option.some.injEq] at h
          subst h
          simp [List.countP_cons, Nat.add_comm]
      | succ i =>
          simp only [List.getElem?_cons_succ] at h
          have hrec := ih i t h
          simp only [List.eraseIdx_cons_succ, List.countP_cons, hrec]
          omega

/-- The guard invariants hold in the initial configuration. -/
theorem inv_init : Inv Config.init := by
  constructor <;> rfl

/-- Every scheduler step preserves the guard invariants. -/
theorem inv_step (c : Config) (e : Event) (h : Inv c) : Inv (applyEvent c e).cfg := by
  obtain ⟨h1, h2⟩ := h
  cases e with
  | callConnect retry =>
      simp only [applyEvent, connEntry, Inv, attemptCount, timerCount] at *
      by_cases hc : c.st.connecting <;>
        simp_all [List.countP_append, List.countP_cons, TaskK.isAttempt, TaskK.isTimer]
  | callDisconnect =>
      simp only [applyEvent, Inv, attemptCount, timerCount] at *
      by_cases hic : c.st.is_connected <;> simp_all
  | linkDropped =>
      simp only [applyEvent, Inv, attemptCount, timerCount] at *
      by_cases hc : c.st.connecting <;>
      by_cases hk : c.st.keep_connected <;>
      by_cases hr : c.st.retry_pending <;>
        simp_all [List.countP_append, List.countP_cons, TaskK.isAttempt, TaskK.isTimer]
  | run i o =>
      rcases hgt : c.tasks[i]? with _ | t
      · simpa only [applyEvent, hgt, Inv, attemptCount, timerCount] using ⟨h1, h2⟩
      · have ha := countP_eraseIdx_eq TaskK.isAttempt c.tasks i t hgt
        have htm := countP_eraseIdx_eq TaskK.isTimer c.tasks i t hgt
        simp only [applyEvent, hgt]
        obtain ⟨co, po⟩ := o
        cases t with
        | awaitConnect retry =>
            simp only [TaskK.isAttempt, TaskK.isTimer, if_pos, if_neg, Bool.false_eq_true,
              reduceIte] at ha htm
            cases co with
            | ok =>
                simp only [resumeTask, Inv, attemptCount, timerCount] at *
                by_cases hc : c.st.connecting <;>
                  simp_all [List.countP_append, List.countP_cons, TaskK.isAttempt,
                    TaskK.isTimer]
            | fail =>
                cases retry with
                | true =>
                    simp only [resumeTask, scheduleReconnect, Inv, attemptCount,
                      timerCount] at *
                    by_cases hc : c.st.connecting <;>
                    by_cases hr : c.st.retry_pending <;>
                      simp_all [List.countP_append, List.countP_cons, TaskK.isAttempt,
                        TaskK.isTimer]
                | false =>
                    simp only [resumeTask, Inv, attemptCount, timerCount] at *
                    by_cases hc : c.st.connecting <;> simp_all
        | awaitPair retry =>
            simp only [TaskK.isAttempt, TaskK.isTimer, reduceIte] at ha htm
            cases po <;>
              · simp only [resumeTask, Inv, attemptCount, timerCount] at *
                by_cases hc : c.st.connecting <;>
                  simp_all [List.countP_append, List.countP_cons, TaskK.isAttempt,
                    TaskK.isTimer]
        | cleanupDbus retry auth =>
            simp only [TaskK.isAttempt, TaskK.isTimer, reduceIte] at ha htm
            simp only [resumeTask, Inv, attemptCount, timerCount] at *
            by_cases hc : c.st.connecting <;> simp_all
        | cleanupExn retry =>
            simp only [TaskK.isAttempt, TaskK.isTimer, reduceIte] at ha htm
            cases retry with
            | true =>
                simp only [resumeTask, scheduleReconnect, Inv, attemptCount,
                  timerCount] at *
                by_cases hc : c.st.connecting <;>
                by_cases hr : c.st.retry_pending <;>
                  simp_all [List.countP_append, List.countP_cons, TaskK.isAttempt,
                    TaskK.isTimer]
            | false =>
                simp only [resumeTask, Inv, attemptCount, timerCount] at *
                by_cases hc : c.st.connecting <;> simp_all
        | awaitCallback retry =>
            simp only [TaskK.isAttempt, TaskK.isTimer, reduceIte] at ha htm
            simp only [resumeTask, Inv, attemptCount, timerCount] at *
            by_cases hc : c.st.connecting <;>
            by_cases hk : c.st.keep_connected <;>
              simp_all [List.countP_append, List.countP_cons, TaskK.isAttempt,
                TaskK.isTimer]
        | timer =>
            simp only [TaskK.isAttempt, TaskK.isTimer, reduceIte] at ha htm
            simp only [resumeTask, connEntry, Inv, attemptCount, timerCount] at *
            by_cases hc : c.st.connecting <;>
            by_cases hk : c.st.keep_connected <;>
            by_cases hr : c.st.retry_pending <;>
            by_cases hic : c.st.is_connected <;>
              simp_all [List.countP_append, List.countP_cons, TaskK.isAttempt,
                TaskK.isTimer]
        | spawnedDisconnect =>
            simp only [TaskK.isAttempt, TaskK.isTimer, reduceIte] at ha htm
            simp only [resumeTask, Inv, attemptCount, timerCount] at *
            by_cases hic : c.st.is_connected <;> simp_all
        | spawnedConnect retry =>
            simp only [TaskK.isAttempt, TaskK.isTimer, reduceIte] at ha htm
            simp only [resumeTask, connEntry, Inv, attemptCount, timerCount] at *
            by_cases hc : c.st.connecting <;>
              simp_all [List.countP_append, List.countP_cons, TaskK.isAttempt,
                TaskK.isTimer]

/-- The guard invariants hold in every reachable configuration. -/
theorem reachable_inv (c : Config) (h : Reachable c) : Inv c := by
  induction h with
  | init => exact inv_init
  | step _ e ih => exact inv_step _ e ih

/-- Configuration reached by a single `connect(True)` call on a fresh manager:
the attempt is suspended at `IdasenDesk.connect()` with `_connecting` set. -/
def cfgAfterConnect : Config := (applyEvent Config.init (Event.callConnect true)).cfg

/-- Configuration reached by `connect(True)` followed by a failing
`IdasenDesk.connect()`: the reconnect timer is pending. -/
def cfgTimerPending : Config :=
  (applyEvent cfgAfterConnect (Event.run 0 ⟨ConnectOutcome.fail, PairOutcome.ok⟩)).cfg

/-- A configuration whose only task is `_handle_connect` suspended at the
connect callback, after `disconnect()` cleared `_keep_connected`. -/
def cfgAtCallback : Config := ⟨⟨false, true, false, true⟩, [TaskK.awaitCallback true]⟩

/-- C1: in every reachable configuration the `_connecting` guard is set exactly
when one connect-attempt task is in flight — so at most one connect/pair
sequence is ever in flight, and the guard is cleared on every exit path of the
attempt, exceptional ones included.  Moreover a `connect` call (or an internal
`_connect` call) made while the guard is set returns immediately: it issues no
transport call and creates no second attempt task. -/
theorem connect_single_flight (c : Config) (h : Reachable c) :
    attemptCount c = (if c.st.connecting then 1 else 0) ∧
    (c.st.connecting = true → ∀ retry : Bool,
      (applyEvent c (Event.callConnect retry)).calls = [] ∧
      (applyEvent c (Event.callConnect retry)).cfg.tasks = c.tasks ∧
      (∀ ts : List TaskK, connEntry retry c.st ts = ⟨⟨c.st, ts⟩, [], [], none⟩)) := by
  refine ⟨(reachable_inv c h).1, ?_⟩
  intro hc retry
  refine ⟨?_, ?_, ?_⟩ <;> simp [applyEvent, connEntry, hc]

/-- Witness for C1 at the reachable configuration with one in-flight attempt. -/
theorem connect_single_flight_witness :
    Reachable cfgAfterConnect ∧
    attemptCount cfgAfterConnect = (if cfgAfterConnect.st.connecting then 1 else 0) ∧
    (applyEvent cfgAfterConnect (Event.callConnect false)).calls = [] ∧
    (applyEvent cfgAfterConnect (Event.callConnect false)).cfg.tasks = cfgAfterConnect.tasks := by
  have hr : Reachable cfgAfterConnect := Reachable.step Reachable.init (Event.callConnect true)
  have h := connect_single_flight cfgAfterConnect hr
  exact ⟨hr, h.1, (h.2 rfl false).1, (h.2 rfl false).2.1⟩

/-- C4: in every reachable configuration the `_retry_pending` flag is set
exactly when one reconnect timer task is outstanding — so two timer tasks are
never outstanding.  `_schedule_reconnect` is a no-op when the flag is set, and
otherwise sets the flag while creating the timer task; when the timer task
fires, the flag is cleared. -/
theorem reconnect_timer_at_most_one (c : Config) (h : Reachable c) :
    timerCount c = (if c.st.retry_pending then 1 else 0) ∧
    (c.st.retry_pending = true →
      ∀ ts : List TaskK, scheduleReconnect c.st ts = ⟨c.st, ts⟩) ∧
    (c.st.retry_pending = false → ∀ ts : List TaskK,
      scheduleReconnect c.st ts =
        ⟨{ c.st with retry_pending := true }, ts ++ [TaskK.timer]⟩) ∧
    (∀ (i : Nat) (o : Oracle), c.tasks[i]? = some TaskK.timer →
      (applyEvent c (Event.run i o)).cfg.st.retry_pending = false) := by
  refine ⟨(reachable_inv c h).2, ?_, ?_, ?_⟩
  · intro hr ts; simp [scheduleReconnect, hr]
  · intro hr ts; simp [scheduleReconnect, hr]
  · intro i o hi
    simp only [applyEvent, hi, resumeTask, connEntry]
    by_cases hk : c.st.keep_connected <;> by_cases hic : c.st.is_connected <;>
      by_cases hc : c.st.connecting <;> simp_all

/-- Witness for C4 at the reachable configuration with a pending timer. -/
theorem reconnect_timer_at_most_one_witness :
    Reachable cfgTimerPending ∧
    cfgTimerPending.st.retry_pending = true ∧
    timerCount cfgTimerPending = (if cfgTimerPending.st.retry_pending then 1 else 0) ∧
    scheduleReconnect cfgTimerPending.st [] = ⟨cfgTimerPending.st, []⟩ ∧
    (applyEvent cfgTimerPending
        (Event.run 0 ⟨ConnectOutcome.ok, PairOutcome.ok⟩)).cfg.st.retry_pending = false := by
  have hr : Reachable cfgTimerPending :=
    Reachable.step (Reachable.step Reachable.init (Event.callConnect true))
      (Event.run 0 ⟨ConnectOutcome.fail, PairOutcome.ok⟩)
  have h := reconnect_timer_at_most_one cfgTimerPending hr
  exact ⟨hr, rfl, h.1, h.2.1 rfl [], h.2.2.2 0 ⟨ConnectOutcome.ok, PairOutcome.ok⟩ rfl⟩

/-- C6: on an unsolicited disconnect notification, `_handle_disconnect` does
nothing when a connect attempt is in flight (no callback, no transport call,
no new task); otherwise it fires `disconnect_callback` and creates a
`connect(True)` task exactly when `_keep_connected` is set and no reconnect
timer is pending. -/
theorem handle_disconnect_cases (c : Config) :
    (applyEvent c Event.linkDropped).obs =
      (if c.st.connecting then [] else [Obs.disconnect_callback]) ∧
    (applyEvent c Event.linkDropped).cfg.tasks =
      c.tasks ++
        (if c.st.connecting then []
         else if c.st.keep_connected && !c.st.retry_pending
              then [TaskK.spawnedConnect true] else []) ∧
    (applyEvent c Event.linkDropped).calls = [] ∧
    (applyEvent c Event.linkDropped).raised = none := by
  by_cases hc : c.st.connecting <;>
    by_cases hk : c.st.keep_connected <;>
    by_cases hp : c.st.retry_pending <;>
      simp [applyEvent, hc, hk, hp]

/-- C7: if `disconnect()` cleared `_keep_connected` while a connect attempt is
suspended at the connect callback, then completing the attempt spawns a
`disconnect()` task (and clears the guard); `disconnect()` always leaves
`_keep_connected` false; and running the spawned `disconnect()` task against a
connected link issues `IdasenDesk.disconnect()` and leaves the link
disconnected. -/
theorem disconnect_request_honored (c : Config) (i : Nat) (retry : Bool) (o : Oracle)
    (hi : c.tasks[i]? = some (TaskK.awaitCallback retry))
    (hk : c.st.keep_connected = false) :
    ((applyEvent c (Event.run i o)).cfg.tasks =
        c.tasks.eraseIdx i ++ [TaskK.spawnedDisconnect] ∧
      (applyEvent c (Event.run i o)).cfg.st.connecting = false) ∧
    (∀ c2 : Config, (applyEvent c2 Event.callDisconnect).cfg.st.keep_connected = false) ∧
    (∀ (c2 : Config) (j : Nat) (o2 : Oracle),
      c2.tasks[j]? = some TaskK.spawnedDisconnect → c2.st.is_connected = true →
      (applyEvent c2 (Event.run j o2)).cfg.st.is_connected = false ∧
      (applyEvent c2 (Event.run j o2)).calls = [LinkCall.disconnect]) := by
  refine ⟨?_, ?_, ?_⟩
  · simp [applyEvent, hi, resumeTask, hk]
  · intro c2
    by_cases hic : c2.st.is_connected <;> simp [applyEvent, hic]
  · intro c2 j o2 hj hic
    simp [applyEvent, hj, resumeTask, hic]

/-- Witness for C7 at a configuration suspended at the connect callback with
`_keep_connected` already cleared. -/
theorem disconnect_request_honored_witness :
    cfgAtCallback.tasks[0]? = some (TaskK.awaitCallback true) ∧
    cfgAtCallback.st.keep_connected = false ∧
    ((applyEvent cfgAtCallback (Event.run 0 ⟨ConnectOutcome.ok, PairOutcome.ok⟩)).cfg.tasks =
        cfgAtCallback.tasks.eraseIdx 0 ++ [TaskK.spawnedDisconnect] ∧
      (applyEvent cfgAtCallback
          (Event.run 0 ⟨ConnectOutcome.ok, PairOutcome.ok⟩)).cfg.st.connecting = false) :=
  ⟨rfl, rfl,
    (disconnect_request_honored cfgAtCallback 0 true ⟨ConnectOutcome.ok, PairOutcome.ok⟩
        rfl rfl).1⟩

/-- C3: for any value of the retry flag, when `pair()` fails with a
`BleakDBusError` carrying `org.bluez.Error.AuthenticationFailed`, the attempt
first awaits `IdasenDesk.disconnect()` (before raising anything) and then
raises `AuthFailedError` to the caller; `_retry_pending` stays clear and no
timer task is ever created, so the auth failure is never turned into a retry. -/
theorem auth_failure_always_raises (retry keep ic : Bool) :
    let c0 : Config := ⟨⟨keep, false, false, ic⟩, []⟩
    let r1 := applyEvent c0 (Event.callConnect retry)
    let r2 := applyEvent r1.cfg (Event.run 0 ⟨ConnectOutcome.ok, PairOutcome.ok⟩)
    let r3 := applyEvent r2.cfg (Event.run 0 ⟨ConnectOutcome.ok, PairOutcome.dbusAuth⟩)
    let r4 := applyEvent r3.cfg (Event.run 0 ⟨ConnectOutcome.ok, PairOutcome.ok⟩)
    r3.calls = [LinkCall.disconnect] ∧ r3.raised = none ∧
    r4.raised = some Err.authFailed ∧ r4.calls = [] ∧
    r4.cfg.st.retry_pending = false ∧ timerCount r4.cfg = 0 ∧
    r4.cfg.st.connecting = false := by
  cases retry <;> cases keep <;> cases ic <;> decide

/-- C5: a `connect(retry=False)` whose `IdasenDesk.connect()` step fails
propagates the transport error to the caller, leaves the link disconnected,
schedules no reconnect timer and leaves the `_retry_pending` flag clear. -/
theorem connect_no_retry_fail_propagates (keep : Bool) (po : PairOutcome) :
    let r1 := applyEvent ⟨⟨keep, false, false, false⟩, []⟩ (Event.callConnect false)
    let r2 := applyEvent r1.cfg (Event.run 0 ⟨ConnectOutcome.fail, po⟩)
    r1.calls = [LinkCall.connect] ∧
    r2.raised = some Err.transport ∧
    r2.cfg.st.is_connected = false ∧
    r2.cfg.st.retry_pending = false ∧
    r2.cfg.tasks = [] ∧
    r2.cfg.st.connecting = false := by
  cases keep <;> cases po <;> decide

/-- Configuration of a `connect(True)` attempt with `IdasenDesk.connect()`
succeeded and `pair()` failed with a non-auth `BleakDBusError`: the attempt is
suspended at the cleanup `IdasenDesk.disconnect()` of the `except
BleakDBusError` arm. -/
def cfgNonAuthCleanup : Config :=
  (applyEvent
    (applyEvent cfgAfterConnect (Event.run 0 ⟨ConnectOutcome.ok, PairOutcome.ok⟩)).cfg
    (Event.run 0 ⟨ConnectOutcome.ok, PairOutcome.dbusOther⟩)).cfg

/-- C2 evaluated on the code: with `retry=True`, a `pair()` failure raising a
`BleakDBusError` whose `dbus_error` is not
`org.bluez.Error.AuthenticationFailed` is re-raised to the caller and no
reconnection is scheduled — the `except BleakDBusError` arm of `_connect`
re-raises unconditionally before the generic `except Exception` arm (which is
the only one that consults `retry`) can run. -/
theorem nonauth_dbus_pair_error_not_retried :
    (applyEvent cfgNonAuthCleanup (Event.run 0 ⟨ConnectOutcome.ok, PairOutcome.ok⟩)).raised =
      some Err.dbusOther ∧
    (applyEvent cfgNonAuthCleanup
        (Event.run 0 ⟨ConnectOutcome.ok, PairOutcome.ok⟩)).cfg.st.retry_pending = false ∧
    timerCount (applyEvent cfgNonAuthCleanup
        (Event.run 0 ⟨ConnectOutcome.ok, PairOutcome.ok⟩)).cfg = 0 := by decide

/-- Python's builtin `round` on an exact value: nearest integer, ties to
even.  `Desk.height_percent` wraps it in `int(...)`, which is the identity on
the integer `round` already returns. -/
def pyRound (q : ℚ) : ℤ :=
  if q - ⌊q⌋ < 1 / 2 then ⌊q⌋
  else if 1 / 2 < q - ⌊q⌋ then ⌊q⌋ + 1
  else if ⌊q⌋ % 2 = 0 then ⌊q⌋ else ⌊q⌋ + 1

/-- `pyRound` is the identity on integers. -/
theorem pyRound_intCast (n : ℤ) : pyRound (n : ℚ) = n := by
  simp [pyRound]

/-- The native target height computed by `Desk.move_to`:
`IdasenDesk.MIN_HEIGHT + (IdasenDesk.MAX_HEIGHT - IdasenDesk.MIN_HEIGHT) *
(heigh_percent / 100)`.  The two constants come from the `idasen` library and
are kept as parameters. -/
def move_to_height (MIN_HEIGHT MAX_HEIGHT heigh_percent : ℚ) : ℚ :=
  MIN_HEIGHT + (MAX_HEIGHT - MIN_HEIGHT) * (heigh_percent / 100)

/-- `Desk.height_percent`: `None` while no height reading was ever obtained,
otherwise `int(round(100 * (height - MIN_HEIGHT) / (MAX_HEIGHT - MIN_HEIGHT)))`. -/
def height_percent (MIN_HEIGHT MAX_HEIGHT : ℚ) (height : Option ℚ) : Option ℤ :=
  match height with
  | none => none
  | some h => some (pyRound (100 * (h - MIN_HEIGHT) / (MAX_HEIGHT - MIN_HEIGHT)))

/-- Transport calls issued by `Desk.move_to`: `IdasenDesk.stop()`,
`asyncio.sleep(seconds)` and `IdasenDesk.move_to_target(height)`. -/
inductive DeskCall where
  | stop
  | sleep (seconds : ℚ)
  | move_to_target (height : ℚ)
deriving DecidableEq, Repr

/-- `Desk.move_to`: returns without any call when not connected or when the
desk object is `None`; when the desk reports it is moving, issues `stop()`
and a 0.5 s settle sleep before writing the converted target. -/
def move_to (MIN_HEIGHT MAX_HEIGHT : ℚ) (is_connected desk_is_none is_moving : Bool)
    (heigh_percent : ℚ) : List DeskCall :=
  if !is_connected || desk_is_none then []
  else
    (if is_moving then [DeskCall.stop, DeskCall.sleep (1 / 2)] else []) ++
      [DeskCall.move_to_target (move_to_height MIN_HEIGHT MAX_HEIGHT heigh_percent)]

/-- The `Desk` wrapper state relevant to disconnects: the cached height
reading `_height`, and the `_keep_connected` / `is_connected` flags of the
underlying connection manager and link. -/
structure DeskState where
  height : Option ℚ
  keep_connected : Bool
  is_connected : Bool
deriving DecidableEq, Repr

/-- Observer notifications fired by `Desk` (`self._update_callback(...)`). -/
inductive DeskObs where
  | update_callback (height_percent : Option ℤ)
deriving DecidableEq, Repr

/-- `Desk.disconnect` delegating to `ConnectionManager.disconnect`: clear
`_keep_connected` and, if the link is connected, await
`IdasenDesk.disconnect()`.  The cached `_height` is not touched. -/
def desk_disconnect (s : DeskState) : DeskState × List LinkCall :=
  let s1 : DeskState := { s with keep_connected := false }
  if s1.is_connected then ({ s1 with is_connected := false }, [LinkCall.disconnect])
  else (s1, [])

/-- The `disconnect_callback` registered by `Desk._create_idasen_desk`: on a
(solicited or unsolicited) link drop it only fires
`self._update_callback(self.height_percent)`; the cached `_height` is not
touched. -/
def desk_drop (MIN_HEIGHT MAX_HEIGHT : ℚ) (s : DeskState) : DeskState × List DeskObs :=
  ({ s with is_connected := false },
   [DeskObs.update_callback (height_percent MIN_HEIGHT MAX_HEIGHT s.height)])

/-- C8: converting a percentage in {0, 50, 100} to a native height with
`Desk.move_to` and projecting it back with `Desk.height_percent` yields the
same percentage, for any valid constant range. -/
theorem percentage_round_trip (MIN_HEIGHT MAX_HEIGHT : ℚ)
    (hlt : MIN_HEIGHT < MAX_HEIGHT) (pct : ℤ)
    (_hp : pct = 0 ∨ pct = 50 ∨ pct = 100) :
    height_percent MIN_HEIGHT MAX_HEIGHT
        (some (move_to_height MIN_HEIGHT MAX_HEIGHT (pct : ℚ))) = some pct := by
  have hne : MAX_HEIGHT - MIN_HEIGHT ≠ 0 := sub_ne_zero.mpr (ne_of_gt hlt)
  have key : 100 * (move_to_height MIN_HEIGHT MAX_HEIGHT (pct : ℚ) - MIN_HEIGHT) /
      (MAX_HEIGHT - MIN_HEIGHT) = (pct : ℚ) := by
    simp only [move_to_height]
    rw [div_eq_iff hne]
    ring
  simp [height_percent, key, pyRound_intCast]

/-- Witness for C8 with the constants of the idasen library
(`MIN_HEIGHT = 0.62`, `MAX_HEIGHT = 1.27`) at 50 percent. -/
theorem percentage_round_trip_witness :
    (62 / 100 : ℚ) < 127 / 100 ∧ ((50 : ℤ) = 0 ∨ (50 : ℤ) = 50 ∨ (50 : ℤ) = 100) ∧
    height_percent (62 / 100) (127 / 100)
        (some (move_to_height (62 / 100) (127 / 100) ((50 : ℤ) : ℚ))) = some 50 :=
  ⟨by norm_num, by norm_num,
    percentage_round_trip (62 / 100) (127 / 100) (by norm_num) 50 (by norm_num)⟩

/-- C9: `move_to` on a connected desk that reports it is moving issues
`stop()`, then the fixed 0.5 s settle sleep, then the converted target write;
when the desk is not moving, the target write is the only call (no `stop()`). -/
theorem move_to_stop_sequencing (MIN_HEIGHT MAX_HEIGHT pct : ℚ) :
    move_to MIN_HEIGHT MAX_HEIGHT true false true pct =
      [DeskCall.stop, DeskCall.sleep (1 / 2),
        DeskCall.move_to_target
          (MIN_HEIGHT + (MAX_HEIGHT - MIN_HEIGHT) * (pct / 100))] ∧
    move_to MIN_HEIGHT MAX_HEIGHT true false false pct =
      [DeskCall.move_to_target
          (MIN_HEIGHT + (MAX_HEIGHT - MIN_HEIGHT) * (pct / 100))] := by
  constructor <;> rfl

/-- C10: neither a user-initiated `Desk.disconnect` nor a link drop clears the
cached `_height`: afterwards `height` and `height_percent` still return the
last reading, and the observer callback fired on a drop carries exactly the
last-known percentage (absent only when no reading was ever obtained). -/
theorem disconnect_preserves_height (MIN_HEIGHT MAX_HEIGHT : ℚ) (s : DeskState) :
    (desk_disconnect s).1.height = s.height ∧
    (desk_drop MIN_HEIGHT MAX_HEIGHT s).1.height = s.height ∧
    height_percent MIN_HEIGHT MAX_HEIGHT (desk_disconnect s).1.height =
      height_percent MIN_HEIGHT MAX_HEIGHT s.height ∧
    height_percent MIN_HEIGHT MAX_HEIGHT (desk_drop MIN_HEIGHT MAX_HEIGHT s).1.height =
      height_percent MIN_HEIGHT MAX_HEIGHT s.height ∧
    (desk_drop MIN_HEIGHT MAX_HEIGHT s).2 =
      [DeskObs.update_callback (height_percent MIN_HEIGHT MAX_HEIGHT s.height)] ∧
    height_percent MIN_HEIGHT MAX_HEIGHT s.height =
      Option.map
        (fun h => pyRound (100 * (h - MIN_HEIGHT) / (MAX_HEIGHT - MIN_HEIGHT)))
        s.height := by
  refine ⟨?_, rfl, ?_, rfl, rfl, ?_⟩
  · by_cases hic : s.is_connected <;> simp [desk_disconnect, hic]
  · by_cases hic : s.is_connected <;> simp [desk_disconnect, hic]
  · cases s.height <;> rfl

end IdasenHA
